import Mathlib

/-!
Formal model of the queue/dispatch subsystem of the data-pipeline repository:
the bounded queue manager (`src/core/queue.py`), the workflow execution engine
(`src/core/workflow.py`), and the polling dispatch loop (`src/core/processor.py`).

Machine conventions: timestamps and durations are natural-number ticks,
JSON payloads are association lists of a small value type, and Python
exceptions are modelled with `Except`.
-/

namespace DataPipeline

/-- A JSON-like payload value, enough structure for the data dictionaries the
queue and the workflows carry around. -/
inductive JVal
  | str (s : String)
  | num (n : Int)
  | bool (b : Bool)
  deriving DecidableEq, Repr

/-- A JSON object payload: the `Dict[str, Any]` values that flow through
`enqueue`, `dequeue` and `BaseWorkflow.execute`. -/
abbrev Data := List (String × JVal)

/-! ## Workflow execution engine (`src/core/workflow.py`) -/

/-- `WorkflowConfig` (workflow.py lines 10-14): name, `max_retries`
(default 3), `enabled` (default true).  `max_retries` is a retry count, so it
is modelled as a natural number. -/
structure WorkflowConfig where
  name : String
  max_retries : Nat := 3
  enabled : Bool := true
  deriving DecidableEq, Repr

/-- `WorkflowResult` (workflow.py lines 16-21): `success`, optional `data`,
optional `error`, `execution_time` (modelled in ticks instead of float
seconds). -/
structure WorkflowResult where
  success : Bool
  data : Option Data := none
  error : Option String := none
  execution_time : Nat := 0
  deriving DecidableEq, Repr

/-- The mutable state of a `BaseWorkflow` instance (workflow.py lines 26-30):
the config, the per-instance `retry_count` (0 at construction), and
`start_time` recorded at construction (`datetime.now()` in `__init__`). -/
structure BaseWorkflow where
  config : WorkflowConfig
  retry_count : Nat
  start_time : Nat
  deriving DecidableEq, Repr

/-- `BaseWorkflow.__init__` (workflow.py lines 26-30): stores the config, sets
`retry_count := 0` and `start_time := now`. -/
def initWorkflow (config : WorkflowConfig) (now : Nat) : BaseWorkflow :=
  { config := config, retry_count := 0, start_time := now }

/-- Outcome of one `execute` call: the returned `WorkflowResult`, the workflow
instance afterwards (its `retry_count` may have grown), the number of
`process` invocations performed so far (`idxAfter`), and the clock
afterwards. -/
structure ExecOutcome where
  result : WorkflowResult
  wfAfter : BaseWorkflow
  idxAfter : Nat
  nowAfter : Nat
  deriving DecidableEq, Repr

/-- `BaseWorkflow.execute` (workflow.py lines 32-59).  The subclass hook
`process` is an effectful Python coroutine, so it is modelled as an oracle
indexed by the invocation count `idx`: invocation `idx` on payload `d`
returns `proc idx d` and consumes `ptime idx` ticks of wall time.

Faithful to the source: run `process`; on success return
`WorkflowResult(success=True, data=result, execution_time=now-start_time)`;
on an exception, if `retry_count < max_retries` increment the counter and
re-invoke `execute` on the same data, else return
`WorkflowResult(success=False, error=e, execution_time=now-start_time)`.
`execution_time` is measured from the instance's `start_time` (set in
`__init__`), exactly as `(datetime.now() - self.start_time).total_seconds()`
is in the source. -/
def execute (proc : Nat → Data → Except String Data) (ptime : Nat → Nat)
    (wf : BaseWorkflow) (idx now : Nat) (d : Data) : ExecOutcome :=
  let after := now + ptime idx
  match proc idx d with
  | .ok r =>
      { result := { success := true, data := some r, error := none,
                    execution_time := after - wf.start_time }
        wfAfter := wf, idxAfter := idx + 1, nowAfter := after }
  | .error e =>
      if wf.retry_count < wf.config.max_retries then
        execute proc ptime { wf with retry_count := wf.retry_count + 1 }
          (idx + 1) after d
      else
        { result := { success := false, data := none, error := some e,
                      execution_time := after - wf.start_time }
          wfAfter := wf, idxAfter := idx + 1, nowAfter := after }
termination_by wf.config.max_retries - wf.retry_count
decreasing_by simp_wf; omega

/-- The full pluggable surface of a workflow subclass: the `process` oracle
with its per-invocation duration, and the `validate` hook (workflow.py lines
61-68).  `BaseWorkflow.execute` has access to `validate` through `self` just
as it has to `process`; whether it consults it is a fact to be proved. -/
structure WorkflowHooks where
  process : Nat → Data → Except String Data
  processTime : Nat → Nat
  validate : Data → Bool

/-- `execute` as the method of an instance whose hooks are `hooks`: the body
of `BaseWorkflow.execute` (workflow.py lines 32-59) refers only to
`self.process`. -/
def executeHooked (hooks : WorkflowHooks) (wf : BaseWorkflow) (idx now : Nat)
    (d : Data) : ExecOutcome :=
  execute hooks.process hooks.processTime wf idx now d

/-! ## Queue manager (`src/core/queue.py`) -/

/-- Python `dict` lookup on a string-keyed association list (first match),
used for `redis_configs` and `redis_connections`. -/
def alookup {α : Type} (k : String) : List (String × α) → Option α
  | [] => none
  | (k', v) :: rest => if k' = k then some v else alookup k rest

/-- Python `dict` assignment `d[k] = v` for a key already present: replace
the value stored at `k`. -/
def setAssoc {α : Type} (k : String) (v : α) (l : List (String × α)) :
    List (String × α) :=
  l.map (fun p => if p.1 = k then (p.1, v) else p)

/-- One serialized queue element (queue.py lines 84-88): the payload `data`,
the enqueue `timestamp`, and the logical `queue` route name. -/
structure Item where
  data : Data
  timestamp : Nat
  queue : String
  deriving DecidableEq, Repr

/-- Python exceptions raised by the queue manager: `ValueError` for an
unconfigured queue name (queue.py lines 51, 79, 112, 135) and `KeyError`
for a missing dictionary key. -/
inductive QErr
  | valueError (msg : String)
  | keyError (key : String)
  deriving DecidableEq, Repr

/-- `str(e)` for a queue-manager exception. -/
def qerrMsg : QErr → String
  | .valueError m => m
  | .keyError k => k

/-- The state of a `QueueManager` (queue.py lines 16-46) together with the
backing Redis stores it talks to.  `redis_configs` maps route names to
connection URLs; `redis_connections` holds one lazily created handle per
route (`none` = unconnected), with handles numbered by `nextConnId` so that
a re-connect is observably a fresh handle; `store` maps a connection URL and
a Redis key to the list value held there (empty when the key is absent). -/
structure QueueManager where
  redis_configs : List (String × String)
  redis_connections : List (String × Option Nat)
  max_queue_length : Nat
  nextConnId : Nat
  store : String → String → List Item

/-- `QueueManager.__init__` (queue.py lines 16-46): every configured route
starts unconnected; `max_queue_length` comes from the Redis config (default
1000); the backing stores start empty. -/
def initManager (configs : List (String × String)) (maxLen : Nat) :
    QueueManager :=
  { redis_configs := configs
    redis_connections := configs.map (fun p => (p.1, none))
    max_queue_length := maxLen
    nextConnId := 0
    store := fun _ _ => [] }

/-- The Redis key `workflow:` + workflow_name + `:queue` (queue.py line 83). -/
def queueKey (workflow_name : String) : String :=
  "workflow:" ++ workflow_name ++ ":queue"

/-- Redis index normalization: a negative index counts from the end of the
list. -/
def redisIndex (len : Nat) (i : Int) : Int :=
  if i < 0 then i + len else i

/-- Redis `LTRIM key start stop`: keep exactly the elements whose normalized
positions lie in `[start, stop]`, clamping `start` up to 0 and `stop` down to
`len - 1`; an empty range empties the list. -/
def redisLtrim {α : Type} (l : List α) (start stop : Int) : List α :=
  let len := l.length
  let s := max (redisIndex len start) 0
  let e := min (redisIndex len stop) ((len : Int) - 1)
  if e < s then []
  else (l.drop s.toNat).take (e - s + 1).toNat

/-- Point update of a backing store at one `(url, key)` pair. -/
def updateStore (store : String → String → List Item) (url key : String)
    (l : List Item) : String → String → List Item :=
  fun u k => if u = url ∧ k = key then l else store u k

/-- `QueueManager.connect` (queue.py lines 48-57): raise `ValueError` if the
route is not configured; then, if the route has no live handle, create one
(fresh id) — otherwise do nothing. -/
def connect (qm : QueueManager) (queue_name : String) :
    Except QErr QueueManager :=
  match alookup queue_name qm.redis_configs with
  | none => .error (.valueError ("Queue " ++ queue_name ++ " not configured"))
  | some _ =>
    match alookup queue_name qm.redis_connections with
    | none => .error (.keyError queue_name)
    | some (some _) => .ok qm
    | some none =>
        .ok { qm with
          redis_connections :=
            setAssoc queue_name (some qm.nextConnId) qm.redis_connections
          nextConnId := qm.nextConnId + 1 }

/-- `QueueManager.disconnect` (queue.py lines 59-64): look up the handle
(`KeyError` on an unknown name); if it is live, close it and set the slot
back to `None`; if the slot is already `None` the `if` guard makes the call
a no-op. -/
def disconnect (qm : QueueManager) (queue_name : String) :
    Except QErr QueueManager :=
  match alookup queue_name qm.redis_connections with
  | none => .error (.keyError queue_name)
  | some none => .ok qm
  | some (some _) =>
      .ok { qm with
        redis_connections := setAssoc queue_name none qm.redis_connections }

/-- `QueueManager.disconnect_all` (queue.py lines 66-69): disconnect every
route in turn. -/
def disconnect_all (qm : QueueManager) : Except QErr QueueManager :=
  qm.redis_connections.foldlM (fun acc p => disconnect acc p.1) qm

/-- `QueueManager.enqueue` (queue.py lines 71-103): raise `ValueError` if the
queue name is unconfigured; `connect`; build the item with the current
timestamp; `RPUSH` it onto `workflow:{name}:queue`; `LTRIM` the list to
`(-max_queue_length, -1)`; log the length and return `True`. -/
def enqueue (qm : QueueManager) (workflow_name : String) (d : Data)
    (queue_name : String) (now : Nat) : Except QErr (Bool × QueueManager) :=
  match alookup queue_name qm.redis_configs with
  | none => .error (.valueError ("Queue " ++ queue_name ++ " not configured"))
  | some url =>
    match connect qm queue_name with
    | .error e => .error e
    | .ok qmc =>
      let key := queueKey workflow_name
      let item : Item := { data := d, timestamp := now, queue := queue_name }
      let trimmed := redisLtrim (qmc.store url key ++ [item])
        (-(qmc.max_queue_length : Int)) (-1)
      .ok (true, { qmc with store := updateStore qmc.store url key trimmed })

/-- `QueueManager.dequeue` (queue.py lines 105-126): raise `ValueError` if
the queue name is unconfigured; `connect`; `LPOP` the head of
`workflow:{name}:queue`, returning `none` when the list is empty. -/
def dequeue (qm : QueueManager) (workflow_name : String)
    (queue_name : String) : Except QErr (Option Item × QueueManager) :=
  match alookup queue_name qm.redis_configs with
  | none => .error (.valueError ("Queue " ++ queue_name ++ " not configured"))
  | some url =>
    match connect qm queue_name with
    | .error e => .error e
    | .ok qmc =>
      let key := queueKey workflow_name
      match qmc.store url key with
      | [] => .ok (none, qmc)
      | x :: rest =>
          .ok (some x, { qmc with store := updateStore qmc.store url key rest })

/-- `QueueManager.get_queue_size` (queue.py lines 128-140): raise
`ValueError` if the queue name is unconfigured; `connect`; `LLEN` of the
queue key. -/
def get_queue_size (qm : QueueManager) (workflow_name : String)
    (queue_name : String) : Except QErr (Nat × QueueManager) :=
  match alookup queue_name qm.redis_configs with
  | none => .error (.valueError ("Queue " ++ queue_name ++ " not configured"))
  | some url =>
    match connect qm queue_name with
    | .error e => .error e
    | .ok qmc => .ok ((qmc.store url (queueKey workflow_name)).length, qmc)

/-- A producer performing one `enqueue` per element of `es`, each with its
own timestamp. -/
def enqueueSeq (wn qn : String) :
    List (Data × Nat) → QueueManager → Except QErr QueueManager
  | [], qm => .ok qm
  | (d, t) :: rest, qm =>
    match enqueue qm wn d qn t with
    | .error e => .error e
    | .ok (_, qm') => enqueueSeq wn qn rest qm'

/-- A consumer performing `k` successive `dequeue` calls, recording each
outcome (an item or the empty signal). -/
def dequeueRun (wn qn : String) :
    Nat → QueueManager → Except QErr (List (Option Item) × QueueManager)
  | 0, qm => .ok ([], qm)
  | k + 1, qm =>
    match dequeue qm wn qn with
    | .error e => .error e
    | .ok (it, qm') =>
      match dequeueRun wn qn k qm' with
      | .error e => .error e
      | .ok (rest, qm'') => .ok (it :: rest, qm'')

/-- The FIFO-bound scenario: starting from a freshly constructed manager,
run one enqueue per element of `es` and then `numDeq` dequeues, returning
the dequeue outcomes. -/
def scenarioRun (configs : List (String × String)) (maxLen : Nat)
    (wn qn : String) (es : List (Data × Nat)) (numDeq : Nat) :
    Except QErr (List (Option Item)) :=
  match enqueueSeq wn qn es (initManager configs maxLen) with
  | .error e => .error e
  | .ok qm' =>
    match dequeueRun wn qn numDeq qm' with
    | .error e => .error e
    | .ok (its, _) => .ok its

/-- The last `n` elements of a list (what drop-oldest eviction keeps). -/
def lastN {α : Type} (n : Nat) (l : List α) : List α :=
  l.drop (l.length - n)

/-! ## Dispatch loop (`src/core/processor.py`) -/

/-- Python exceptions that escape the dispatch body and are caught by its
`except` clause. -/
inductive PyErr
  | attributeError (msg : String)
  | typeError (msg : String)
  deriving DecidableEq, Repr

/-- `str(e)` for a dispatch-body exception. -/
def pyErrMsg : PyErr → String
  | .attributeError m => m
  | .typeError m => m

/-- Python attribute access `config.name` performed by
`BaseWorkflow.__init__` (workflow.py line 29) when the dispatch loop passes
it the dequeued item dictionary (processor.py line 59): a Python `dict` does
not expose its entries as attributes, so the access raises
`AttributeError`. -/
def itemGetattr (_item : Item) (attr : String) : Except PyErr JVal :=
  .error (.attributeError ("'dict' object has no attribute '" ++ attr ++ "'"))

/-- The dispatch loop's attempt to run one dequeued item (processor.py lines
59-60): `workflow = workflow_class(data)` then
`result = await workflow.execute()`.  Every registered workflow class
funnels into `BaseWorkflow.__init__(config)`, which evaluates `config.name`,
so construction from the raw item dictionary raises `AttributeError`; had it
somehow produced an instance, `workflow.execute()` still omits the required
`data` parameter of `BaseWorkflow.execute` (workflow.py line 32) and would
raise `TypeError`.  Either way no `WorkflowResult` is produced. -/
def dispatchItem (item : Item) : Except PyErr WorkflowResult :=
  match itemGetattr item "name" with
  | .error e => .error e
  | .ok _ => .error (.typeError
      "execute() missing 1 required positional argument: 'data'")

/-- Prometheus counter bump for label pair `(workflow_name, status)`
(processor.py lines 63-66). -/
def bumpCounter (k : String × String) :
    List ((String × String) × Nat) → List ((String × String) × Nat)
  | [] => [(k, 1)]
  | (k', n) :: rest =>
      if k' = k then (k', n + 1) :: rest else (k', n) :: bumpCounter k rest

/-- Prometheus gauge set for a workflow label (processor.py lines 54-56). -/
def setGauge (k : String) (v : Nat) :
    List (String × Nat) → List (String × Nat)
  | [] => [(k, v)]
  | (k', v') :: rest =>
      if k' = k then (k', v) :: rest else (k', v') :: setGauge k v rest

/-- State of a `WorkflowProcessor` (processor.py lines 16-32) together with
its queue manager, metrics, the `processor_error` log, and a tick clock for
the end-of-pass sleep. -/
structure ProcState where
  qm : QueueManager
  registry : List String
  running : Bool
  execCounter : List ((String × String) × Nat)
  gauge : List (String × Nat)
  errorLog : List (String × String)
  clock : Nat

/-- One workflow's visit inside a dispatch pass: the `try` body of
processor.py lines 47-74 — dequeue from the `default` route; on no data,
`continue`; otherwise set the queue-size gauge, attempt to construct and
execute the workflow, and bump the execution counter by outcome.  Any
exception raised in the body is caught by the `except` clause (lines 75-80)
and appended to the `processor_error` log; the manager's store mutations
performed before the exception persist. -/
def visitWorkflow (s : ProcState) (wn : String) : ProcState :=
  match dequeue s.qm wn "default" with
  | .error e => { s with errorLog := (wn, qerrMsg e) :: s.errorLog }
  | .ok (none, qm') => { s with qm := qm' }
  | .ok (some item, qm') =>
    match get_queue_size qm' wn "default" with
    | .error e => { s with qm := qm', errorLog := (wn, qerrMsg e) :: s.errorLog }
    | .ok (n, qm'') =>
      let s1 := { s with qm := qm'', gauge := setGauge wn n s.gauge }
      match dispatchItem item with
      | .ok result =>
          let status := if result.success then "success" else "failure"
          { s1 with execCounter := bumpCounter (wn, status) s1.execCounter }
      | .error e => { s1 with errorLog := (wn, pyErrMsg e) :: s1.errorLog }

/-- One full dispatch pass: visit every registered workflow once, in
registration order (the `for` loop of processor.py line 46). -/
def onePass (s : ProcState) : ProcState :=
  s.registry.foldl visitWorkflow s

/-- One iteration of the `while self._running` loop (processor.py lines
45-82): a full pass followed by `asyncio.sleep(1)`, which advances the clock
by one tick. -/
def loopIter (s : ProcState) : ProcState :=
  let s' := onePass s
  { s' with clock := s'.clock + 1 }

/-- The `while self._running` loop itself, supplied with fuel: each round
checks the flag, and runs one iteration only while it is set. -/
def runLoop : Nat → ProcState → ProcState
  | 0, s => s
  | fuel + 1, s => if s.running then runLoop fuel (loopIter s) else s

/-- `WorkflowProcessor.stop` (processor.py lines 84-87): clear the running
flag. -/
def stopProc (s : ProcState) : ProcState :=
  { s with running := false }

/-- `WorkflowProcessor.start` (processor.py lines 40-43): set the running
flag and enter the polling loop. -/
def startProc (fuel : Nat) (s : ProcState) : ProcState :=
  runLoop fuel { s with running := true }

/-! ## Concrete configurations and scenario states used by the witnesses -/

/-- The example payload of the spec scenario. -/
def demoData : Data := [("symbol", JVal.str "BTC"), ("price", JVal.num 42)]

/-- A second and a third payload for the three-enqueue scenario. -/
def demoData2 : Data := [("symbol", JVal.str "ETH"), ("price", JVal.num 7)]

/-- Yet another payload. -/
def demoData3 : Data := [("symbol", JVal.str "SOL"), ("price", JVal.num 3)]

/-- The demo URL of the `default` route. -/
def demoUrl : String := "redis://localhost:6379/0"

/-- A route table with the single `default` route. -/
def defaultConfigs : List (String × String) := [("default", demoUrl)]

/-- A demo workflow config (`max_retries` keeps its default 3). -/
def demoCfg : WorkflowConfig := { name := "demo" }

/-- A demo workflow config with `max_retries = 0`. -/
def demoCfg0 : WorkflowConfig := { name := "demo", max_retries := 0 }

/-- A hook set whose `validate` rejects every input while `process`
succeeds. -/
def rejectHooks : WorkflowHooks :=
  { process := fun _ _ => .ok [("message", JVal.str "done")]
    processTime := fun _ => 1
    validate := fun _ => false }

/-- A manager for the `default` route whose connection is live (handle 0). -/
def qmConnected : QueueManager :=
  { redis_configs := defaultConfigs
    redis_connections := [("default", some 0)]
    max_queue_length := 1000
    nextConnId := 1
    store := fun _ _ => [] }

/-- A connected manager with bound 2 whose demo queue already holds two
items. -/
def qmFull : QueueManager :=
  { redis_configs := defaultConfigs
    redis_connections := [("default", some 0)]
    max_queue_length := 2
    nextConnId := 1
    store := fun u k =>
      if u = demoUrl ∧ k = queueKey "demo" then
        [{ data := demoData, timestamp := 1, queue := "default" },
         { data := demoData2, timestamp := 2, queue := "default" }]
      else [] }

/-- The dispatch scenario of C4: one registered workflow `demo` whose queue
holds one freshly enqueued item. -/
def c4Run : Except QErr ProcState :=
  match enqueue (initManager defaultConfigs 1000) "demo" demoData "default" 0 with
  | .error e => .error e
  | .ok (_, qm') =>
      .ok (onePass
        { qm := qm', registry := ["demo"], running := true,
          execCounter := [], gauge := [], errorLog := [], clock := 0 })

/-- A processor state with two registered workflows, each with one queued
item, used to show that one workflow's dispatch exception does not prevent
the next workflow's visit. -/
def c8TwoState : ProcState :=
  { qm :=
    { redis_configs := defaultConfigs
      redis_connections := [("default", some 0)]
      max_queue_length := 1000
      nextConnId := 1
      store := fun u k =>
        if u = demoUrl ∧ k = queueKey "wfA" then
          [{ data := demoData, timestamp := 1, queue := "default" }]
        else if u = demoUrl ∧ k = queueKey "wfB" then
          [{ data := demoData2, timestamp := 2, queue := "default" }]
        else [] }
    registry := ["wfA", "wfB"]
    running := true
    execCounter := []
    gauge := []
    errorLog := []
    clock := 0 }

/-- A processor state whose manager has an empty route table, so every
dequeue raises `ValueError`. -/
def c8NoRouteState : ProcState :=
  { qm := initManager [] 1000
    registry := ["wfA", "wfB"]
    running := true
    execCounter := []
    gauge := []
    errorLog := []
    clock := 0 }

/-! ## Lemmas about lists and association lists -/

/-- `LTRIM key -n -1` with `n ≥ 1` keeps exactly the last `n` elements. -/
theorem ltrim_lastN {α : Type} (n : Nat) (hn : 1 ≤ n) (l : List α) :
    redisLtrim l (-(n : Int)) (-1) = lastN n l := by
  rcases l with _ | ⟨x, xs⟩
  · unfold redisLtrim lastN
    dsimp only
    split <;> simp
  · have hidx1 : redisIndex (x :: xs).length (-1)
        = ((x :: xs).length : Int) - 1 := by
      unfold redisIndex
      rw [if_pos (by omega)]
      omega
    have hidxn : redisIndex (x :: xs).length (-(n : Int))
        = ((x :: xs).length : Int) - n := by
      unfold redisIndex
      rw [if_pos (by omega)]
      omega
    have hL : (x :: xs).length = xs.length + 1 := rfl
    unfold redisLtrim lastN
    dsimp only
    rw [hidx1, hidxn]
    rw [if_neg (by omega)]
    by_cases hc : (x :: xs).length ≤ n
    · have hs : max (((x :: xs).length : Int) - n) 0 = 0 := by omega
      rw [hs]
      have hdrop : (x :: xs).length - n = 0 := by omega
      rw [hdrop]
      simp only [Int.toNat_zero, List.drop_zero]
      have htake : (min (((x :: xs).length : Int) - 1)
          (((x :: xs).length : Int) - 1) - 0 + 1).toNat = (x :: xs).length := by
        omega
      rw [htake, List.take_length]
    · have hs : max (((x :: xs).length : Int) - n) 0
          = ((x :: xs).length : Int) - n := by omega
      rw [hs]
      have hsn : ((((x :: xs).length : Int) - n)).toNat
          = (x :: xs).length - n := by omega
      rw [hsn]
      have htake : (min (((x :: xs).length : Int) - 1)
          (((x :: xs).length : Int) - 1) - (((x :: xs).length : Int) - n)
            + 1).toNat = n := by omega
      rw [htake]
      apply List.take_of_length_le
      rw [List.length_drop]
      omega

/-- Keeping the last `n` of a list no longer than `n` keeps it whole. -/
theorem lastN_of_le {α : Type} (n : Nat) (l : List α) (h : l.length ≤ n) :
    lastN n l = l := by
  unfold lastN
  have : l.length - n = 0 := by omega
  rw [this, List.drop_zero]

/-- The last `n` elements are at most `n` elements. -/
theorem lastN_length_le {α : Type} (n : Nat) (l : List α) :
    (lastN n l).length ≤ n := by
  unfold lastN
  rw [List.length_drop]
  omega

/-- Taking the last `n` before appending keeps the same last `n`. -/
theorem lastN_lastN_append {α : Type} (n : Nat) (l l' : List α) :
    lastN n (lastN n l ++ l') = lastN n (l ++ l') := by
  unfold lastN
  rw [List.drop_append_eq_append_drop, List.drop_drop,
    List.drop_append_eq_append_drop]
  simp only [List.length_append, List.length_drop]
  congr 2 <;> omega

/-- `lastN` commutes with `map`. -/
theorem lastN_map {α β : Type} (f : α → β) (n : Nat) (l : List α) :
    lastN n (l.map f) = (lastN n l).map f := by
  unfold lastN
  rw [List.length_map, List.map_drop]

/-- Iterated append-and-trim equals the last `n` of everything appended,
provided the seed already respects the bound. -/
theorem foldl_trim_lastN (qn : String) (maxLen : Nat) (hmax : 1 ≤ maxLen) :
    ∀ (es : List (Data × Nat)) (init : List Item), init.length ≤ maxLen →
      es.foldl (fun acc p =>
          redisLtrim (acc ++ [{ data := p.1, timestamp := p.2, queue := qn }])
            (-(maxLen : Int)) (-1)) init
        = lastN maxLen
            (init ++ es.map (fun p =>
              ({ data := p.1, timestamp := p.2, queue := qn } : Item))) := by
  intro es
  induction es with
  | nil =>
    intro init hinit
    simp only [List.foldl_nil, List.map_nil, List.append_nil]
    rw [lastN_of_le _ _ hinit]
  | cons p rest ih =>
    intro init hinit
    rw [List.foldl_cons, ltrim_lastN maxLen hmax,
      ih _ (lastN_length_le _ _), lastN_lastN_append]
    simp [List.append_assoc]

/-- Updating a present key makes `alookup` return the new value. -/
theorem alookup_setAssoc_self {α : Type} (k : String) (v : α)
    (l : List (String × α)) (h : (alookup k l).isSome) :
    alookup k (setAssoc k v l) = some v := by
  induction l with
  | nil => simp [alookup] at h
  | cons p rest ih =>
    obtain ⟨k1, v1⟩ := p
    by_cases hk : k1 = k
    · have hsa : setAssoc k v ((k1, v1) :: rest)
          = (k, v) :: setAssoc k v rest := by
        simp [setAssoc, hk]
      rw [hsa]
      simp [alookup]
    · have hsa : setAssoc k v ((k1, v1) :: rest)
          = (k1, v1) :: setAssoc k v rest := by
        simp [setAssoc, hk]
      rw [hsa]
      simp only [alookup, if_neg hk] at h ⊢
      exact ih h

/-- Looking up in the all-`none` connection table built by `__init__`
succeeds exactly on configured routes. -/
theorem alookup_init_connections (configs : List (String × String))
    (k : String) :
    alookup k (configs.map (fun p => (p.1, (none : Option Nat))))
      = (alookup k configs).map (fun _ => (none : Option Nat)) := by
  induction configs with
  | nil => simp [alookup]
  | cons p rest ih =>
    obtain ⟨k1, v1⟩ := p
    by_cases hk : k1 = k
    · simp [alookup, hk]
    · simp only [List.map_cons, alookup, if_neg hk]
      exact ih

/-! ## Lemmas about the queue manager operations -/

/-- On a configured route with a present connection slot, `connect` succeeds
and touches neither the stores, the route table, nor the bound; the slot
stays present. -/
theorem connect_ok (qm : QueueManager) (qn url : String)
    (hroute : alookup qn qm.redis_configs = some url)
    (hconn : (alookup qn qm.redis_connections).isSome) :
    ∃ qmc, connect qm qn = .ok qmc ∧
      qmc.store = qm.store ∧
      qmc.redis_configs = qm.redis_configs ∧
      (alookup qn qmc.redis_connections).isSome ∧
      qmc.max_queue_length = qm.max_queue_length := by
  unfold connect
  rw [hroute]
  dsimp only
  cases hcn : alookup qn qm.redis_connections with
  | none => rw [hcn] at hconn; simp at hconn
  | some c =>
    cases c with
    | none =>
      refine ⟨_, rfl, rfl, rfl, ?_, rfl⟩
      dsimp only
      rw [alookup_setAssoc_self _ _ _ (by rw [hcn]; rfl)]
      rfl
    | some cid => exact ⟨qm, rfl, rfl, rfl, by rw [hcn]; rfl, rfl⟩

/-- On a reachable route, `enqueue` returns `True` and replaces the queue
list with the trimmed append, preserving the route table and the bound. -/
theorem enqueue_ok (qm : QueueManager) (wn : String) (d : Data) (qn : String)
    (now : Nat) (url : String)
    (hroute : alookup qn qm.redis_configs = some url)
    (hconn : (alookup qn qm.redis_connections).isSome) :
    ∃ qm', enqueue qm wn d qn now = .ok (true, qm') ∧
      qm'.store url (queueKey wn)
        = redisLtrim (qm.store url (queueKey wn)
            ++ [{ data := d, timestamp := now, queue := qn }])
            (-(qm.max_queue_length : Int)) (-1) ∧
      qm'.redis_configs = qm.redis_configs ∧
      (alookup qn qm'.redis_connections).isSome ∧
      qm'.max_queue_length = qm.max_queue_length := by
  obtain ⟨qmc, hc, hcs, hcc, hcconn, hcm⟩ := connect_ok qm qn url hroute hconn
  unfold enqueue
  rw [hroute]
  dsimp only
  rw [hc]
  dsimp only
  refine ⟨_, rfl, ?_, hcc, hcconn, hcm⟩
  unfold updateStore
  simp [hcs, hcm]

/-- On a reachable route, `dequeue` pops the queue head (or reports empty),
leaving the tail, the route table, and the bound in place. -/
theorem dequeue_ok (qm : QueueManager) (wn qn url : String)
    (hroute : alookup qn qm.redis_configs = some url)
    (hconn : (alookup qn qm.redis_connections).isSome) :
    ∃ qm', dequeue qm wn qn
        = .ok ((qm.store url (queueKey wn)).head?, qm') ∧
      qm'.store url (queueKey wn) = (qm.store url (queueKey wn)).tail ∧
      qm'.redis_configs = qm.redis_configs ∧
      (alookup qn qm'.redis_connections).isSome ∧
      qm'.max_queue_length = qm.max_queue_length := by
  obtain ⟨qmc, hc, hcs, hcc, hcconn, hcm⟩ := connect_ok qm qn url hroute hconn
  cases hl : qm.store url (queueKey wn) with
  | nil =>
    refine ⟨qmc, ?_, ?_, hcc, hcconn, hcm⟩
    · unfold dequeue
      rw [hroute]
      dsimp only
      rw [hc]
      dsimp only
      rw [hcs, hl]
      rfl
    · rw [hcs, hl]
      rfl
  | cons x rest =>
    refine ⟨{ qmc with store := updateStore qm.store url (queueKey wn) rest },
      ?_, ?_, hcc, hcconn, hcm⟩
    · unfold dequeue
      rw [hroute]
      dsimp only
      rw [hc]
      dsimp only
      rw [hcs, hl]
      rfl
    · simp [updateStore]

/-- A run of `k` dequeues on an empty queue reports empty `k` times. -/
theorem dequeueRun_empty (wn qn url : String) :
    ∀ (k : Nat) (qm : QueueManager),
      alookup qn qm.redis_configs = some url →
      (alookup qn qm.redis_connections).isSome →
      qm.store url (queueKey wn) = [] →
      ∃ qm', dequeueRun wn qn k qm = .ok (List.replicate k none, qm') := by
  intro k
  induction k with
  | zero => intro qm _ _ _; exact ⟨qm, rfl⟩
  | succ k ih =>
    intro qm h1 h2 h3
    obtain ⟨qm1, hdq, hst, hcc, hcconn, _⟩ := dequeue_ok qm wn qn url h1 h2
    rw [h3] at hdq hst
    simp only [List.head?_nil, List.tail_nil] at hdq hst
    obtain ⟨qm2, hrun⟩ := ih qm1 (by rw [hcc]; exact h1) hcconn hst
    refine ⟨qm2, ?_⟩
    unfold dequeueRun
    rw [hdq]
    dsimp only
    rw [hrun]
    simp [List.replicate_succ]

/-- A run of `length + k` dequeues on a queue holding `l` returns the
elements of `l` in order, then reports empty `k` times. -/
theorem dequeueRun_drain (wn qn url : String) :
    ∀ (l : List Item) (k : Nat) (qm : QueueManager),
      alookup qn qm.redis_configs = some url →
      (alookup qn qm.redis_connections).isSome →
      qm.store url (queueKey wn) = l →
      ∃ qm', dequeueRun wn qn (l.length + k) qm
        = .ok (l.map some ++ List.replicate k none, qm') := by
  intro l
  induction l with
  | nil =>
    intro k qm h1 h2 h3
    obtain ⟨qm', h⟩ := dequeueRun_empty wn qn url k qm h1 h2 h3
    exact ⟨qm', by simpa using h⟩
  | cons x rest ih =>
    intro k qm h1 h2 h3
    obtain ⟨qm1, hdq, hst, hcc, hcconn, _⟩ := dequeue_ok qm wn qn url h1 h2
    rw [h3] at hdq hst
    simp only [List.head?_cons, List.tail_cons] at hdq hst
    obtain ⟨qm2, hrun⟩ := ih k qm1 (by rw [hcc]; exact h1) hcconn hst
    refine ⟨qm2, ?_⟩
    have hcount : (x :: rest).length + k = (rest.length + k) + 1 := by
      simp [List.length_cons]
      omega
    rw [hcount]
    unfold dequeueRun
    rw [hdq]
    dsimp only
    rw [hrun]
    simp

/-- A producer run over a reachable route succeeds, and the queue list ends
up as the iterated append-and-trim of the enqueued items. -/
theorem enqueueSeq_ok (wn qn url : String) :
    ∀ (es : List (Data × Nat)) (qm : QueueManager),
      alookup qn qm.redis_configs = some url →
      (alookup qn qm.redis_connections).isSome →
      ∃ qm', enqueueSeq wn qn es qm = .ok qm' ∧
        qm'.store url (queueKey wn)
          = es.foldl (fun acc p =>
              redisLtrim
                (acc ++ [{ data := p.1, timestamp := p.2, queue := qn }])
                (-(qm.max_queue_length : Int)) (-1))
              (qm.store url (queueKey wn)) ∧
        qm'.redis_configs = qm.redis_configs ∧
        (alookup qn qm'.redis_connections).isSome ∧
        qm'.max_queue_length = qm.max_queue_length := by
  intro es
  induction es with
  | nil => intro qm _ h2; exact ⟨qm, rfl, rfl, rfl, h2, rfl⟩
  | cons p rest ih =>
    intro qm h1 h2
    obtain ⟨pd, pt⟩ := p
    obtain ⟨qm1, henq, hst, hcc, hcconn, hm⟩ :=
      enqueue_ok qm wn pd qn pt url h1 h2
    obtain ⟨qm2, hrun, hst2, hcc2, hcconn2, hm2⟩ :=
      ih qm1 (by rw [hcc]; exact h1) hcconn
    refine ⟨qm2, ?_, ?_, hcc2.trans hcc, hcconn2, hm2.trans hm⟩
    · unfold enqueueSeq
      rw [henq]
      dsimp only
      exact hrun
    · rw [hst2, hm, hst]
      simp only [List.foldl_cons]

/-- On an always-failing process, one `execute` call performs
`max_retries - retry_count + 1` process invocations, fails, finishes at the
start clock plus the summed attempt durations, and reports
`execution_time = final clock - start_time`. -/
theorem execute_fail_run (proc : Nat → Data → Except String Data)
    (ptime : Nat → Nat) (hfail : ∀ i d, ∃ e, proc i d = .error e) :
    ∀ (n : Nat) (wf : BaseWorkflow) (idx now : Nat) (d : Data),
      wf.config.max_retries - wf.retry_count = n →
      (execute proc ptime wf idx now d).idxAfter = idx + n + 1 ∧
      (execute proc ptime wf idx now d).result.success = false ∧
      (execute proc ptime wf idx now d).nowAfter
        = now + ((List.range' idx (n + 1)).map ptime).sum ∧
      (execute proc ptime wf idx now d).result.execution_time
        = (execute proc ptime wf idx now d).nowAfter - wf.start_time := by
  intro n
  induction n with
  | zero =>
    intro wf idx now d hn
    obtain ⟨e, he⟩ := hfail idx d
    have hrc : ¬ wf.retry_count < wf.config.max_retries := by omega
    unfold execute
    rw [he]
    simp [hrc]
  | succ k ih =>
    intro wf idx now d hn
    obtain ⟨e, he⟩ := hfail idx d
    have hrc : wf.retry_count < wf.config.max_retries := by omega
    have ih' := ih { wf with retry_count := wf.retry_count + 1 } (idx + 1)
      (now + ptime idx) d (by simp; omega)
    obtain ⟨h1, h2, h3, h4⟩ := ih'
    unfold execute
    rw [he]
    dsimp only
    rw [if_pos hrc]
    refine ⟨by rw [h1]; omega, h2, ?_, by rw [h4]⟩
    rw [h3]
    rw [show List.range' idx (k + 2) = idx :: List.range' (idx + 1) (k + 1) from rfl]
    simp
    omega

/-- Every `execute` call invokes `process` at least once. -/
theorem execute_invokes_process (proc : Nat → Data → Except String Data)
    (ptime : Nat → Nat) :
    ∀ (n : Nat) (wf : BaseWorkflow) (idx now : Nat) (d : Data),
      wf.config.max_retries - wf.retry_count = n →
      idx + 1 ≤ (execute proc ptime wf idx now d).idxAfter := by
  intro n
  induction n with
  | zero =>
    intro wf idx now d hn
    have hrc : ¬ wf.retry_count < wf.config.max_retries := by omega
    unfold execute
    cases hp : proc idx d with
    | ok r => simp
    | error e => simp [hrc]
  | succ k ih =>
    intro wf idx now d hn
    have hrc : wf.retry_count < wf.config.max_retries := by omega
    unfold execute
    cases hp : proc idx d with
    | ok r => simp
    | error e =>
      dsimp only
      rw [if_pos hrc]
      have := ih { wf with retry_count := wf.retry_count + 1 } (idx + 1)
        (now + ptime idx) d (by simp; omega)
      omega

/-- Every result produced by `execute` has one of two shapes: success with
`data` set and `error` unset, or failure with `data` unset and `error`
set. -/
theorem execute_shape (proc : Nat → Data → Except String Data)
    (ptime : Nat → Nat) :
    ∀ (n : Nat) (wf : BaseWorkflow) (idx now : Nat) (d : Data),
      wf.config.max_retries - wf.retry_count = n →
      ((∃ r, (execute proc ptime wf idx now d).result.success = true ∧
             (execute proc ptime wf idx now d).result.data = some r ∧
             (execute proc ptime wf idx now d).result.error = none) ∨
       (∃ e, (execute proc ptime wf idx now d).result.success = false ∧
             (execute proc ptime wf idx now d).result.data = none ∧
             (execute proc ptime wf idx now d).result.error = some e)) := by
  intro n
  induction n with
  | zero =>
    intro wf idx now d hn
    have hrc : ¬ wf.retry_count < wf.config.max_retries := by omega
    unfold execute
    cases hp : proc idx d with
    | ok r => exact .inl ⟨r, by simp⟩
    | error e => exact .inr ⟨e, by simp [hrc]⟩
  | succ k ih =>
    intro wf idx now d hn
    have hrc : wf.retry_count < wf.config.max_retries := by omega
    unfold execute
    cases hp : proc idx d with
    | ok r => exact .inl ⟨r, by simp⟩
    | error e =>
      dsimp only
      rw [if_pos hrc]
      exact ih { wf with retry_count := wf.retry_count + 1 } (idx + 1)
        (now + ptime idx) d (by simp; omega)

/-- `execute` preserves the config and never decreases the retry counter,
and the counter never climbs past `max retry_count max_retries`. -/
theorem execute_retry_mono (proc : Nat → Data → Except String Data)
    (ptime : Nat → Nat) :
    ∀ (n : Nat) (wf : BaseWorkflow) (idx now : Nat) (d : Data),
      wf.config.max_retries - wf.retry_count = n →
      (execute proc ptime wf idx now d).wfAfter.config = wf.config ∧
      wf.retry_count ≤ (execute proc ptime wf idx now d).wfAfter.retry_count ∧
      (execute proc ptime wf idx now d).wfAfter.retry_count
        ≤ max wf.retry_count wf.config.max_retries := by
  intro n
  induction n with
  | zero =>
    intro wf idx now d hn
    have hrc : ¬ wf.retry_count < wf.config.max_retries := by omega
    unfold execute
    cases hp : proc idx d with
    | ok r => exact ⟨rfl, le_refl _, le_max_left _ _⟩
    | error e => dsimp only; rw [if_neg hrc]; exact ⟨rfl, le_refl _, le_max_left _ _⟩
  | succ k ih =>
    intro wf idx now d hn
    have hrc : wf.retry_count < wf.config.max_retries := by omega
    unfold execute
    cases hp : proc idx d with
    | ok r => exact ⟨rfl, le_refl _, le_max_left _ _⟩
    | error e =>
      dsimp only
      rw [if_pos hrc]
      obtain ⟨h1, h2, h3⟩ := ih { wf with retry_count := wf.retry_count + 1 }
        (idx + 1) (now + ptime idx) d (by simp; omega)
      dsimp only at h1 h2 h3
      exact ⟨h1, by omega, by omega⟩

/-! ## Claims about the execution engine -/

/-- C2: for a fresh workflow instance whose process step fails on every
attempt, `execute` invokes `process` exactly `max_retries + 1` times, then
produces a failed result whose `execution_time` is the summed wall time of
all attempts (the instance is constructed, and `execute` entered, at clock
`t0`). -/
theorem claim_C2 (proc : Nat → Data → Except String Data) (ptime : Nat → Nat)
    (cfg : WorkflowConfig) (t0 : Nat) (d : Data)
    (hfail : ∀ i d', ∃ e, proc i d' = .error e) :
    (execute proc ptime (initWorkflow cfg t0) 0 t0 d).idxAfter
        = cfg.max_retries + 1 ∧
    (execute proc ptime (initWorkflow cfg t0) 0 t0 d).result.success = false ∧
    (execute proc ptime (initWorkflow cfg t0) 0 t0 d).result.execution_time
        = ((List.range (cfg.max_retries + 1)).map ptime).sum := by
  obtain ⟨h1, h2, h3, h4⟩ := execute_fail_run proc ptime hfail cfg.max_retries
    (initWorkflow cfg t0) 0 t0 d (by simp [initWorkflow])
  refine ⟨by omega, h2, ?_⟩
  rw [h4, h3, List.range_eq_range']
  simp [initWorkflow]

/-- Witness for C2: `max_retries = 3` (the default), a process raising
`boom` on every attempt, attempt durations 1,2,3,4 ticks: four invocations,
failure, `execution_time = 10`. -/
theorem claim_C2_witness :
    (execute (fun _ _ => .error "boom") (fun i => i + 1)
        (initWorkflow demoCfg 10) 0 10 []).idxAfter = 4 ∧
    (execute (fun _ _ => .error "boom") (fun i => i + 1)
        (initWorkflow demoCfg 10) 0 10 []).result.success = false ∧
    (execute (fun _ _ => .error "boom") (fun i => i + 1)
        (initWorkflow demoCfg 10) 0 10 []).result.execution_time = 10 := by
  have h := claim_C2 (fun _ _ => .error "boom") (fun i => i + 1) demoCfg 10 []
    (fun _ _ => ⟨"boom", rfl⟩)
  simpa [demoCfg, List.range_succ] using h

/-- C3 counterexample: a workflow whose `validate` rejects every input still
has `process` run (one invocation) and succeed — `execute` never consults
`validate`, contradicting the claim that a rejected input is not
processed. -/
theorem claim_C3_cex :
    rejectHooks.validate demoData = false ∧
    (executeHooked rejectHooks (initWorkflow demoCfg 0) 0 0 demoData).idxAfter
        = 1 ∧
    (executeHooked rejectHooks
        (initWorkflow demoCfg 0) 0 0 demoData).result.success = true := by
  refine ⟨rfl, ?_, ?_⟩ <;>
    (unfold executeHooked execute; simp [rejectHooks])

/-- C3 (amended): every invocation of `execute(data)` runs `process(data)`
directly — at least one `process` invocation always happens — and the
outcome is independent of the `validate` hook, which `execute` never
invokes; in particular `process` still runs on inputs that `validate`
rejects. -/
theorem claim_C3 (hooks : WorkflowHooks) (v : Data → Bool)
    (wf : BaseWorkflow) (idx now : Nat) (d : Data) :
    executeHooked { hooks with validate := v } wf idx now d
      = executeHooked hooks wf idx now d ∧
    idx + 1 ≤ (executeHooked hooks wf idx now d).idxAfter := by
  exact ⟨rfl, execute_invokes_process hooks.process hooks.processTime
    (wf.config.max_retries - wf.retry_count) wf idx now d rfl⟩

/-- C5: every `WorkflowResult` produced by `execute` is either a success
carrying `data` and no `error`, or a failure carrying `error` and no `data`
— `data` and `error` are mutually exclusive. -/
theorem claim_C5 (proc : Nat → Data → Except String Data) (ptime : Nat → Nat)
    (wf : BaseWorkflow) (idx now : Nat) (d : Data) :
    ((∃ r, (execute proc ptime wf idx now d).result.success = true ∧
           (execute proc ptime wf idx now d).result.data = some r ∧
           (execute proc ptime wf idx now d).result.error = none) ∨
     (∃ e, (execute proc ptime wf idx now d).result.success = false ∧
           (execute proc ptime wf idx now d).result.data = none ∧
           (execute proc ptime wf idx now d).result.error = some e)) :=
  execute_shape proc ptime (wf.config.max_retries - wf.retry_count)
    wf idx now d rfl

/-- C10: when an instance's retry counter is within bounds, it stays within
`0 ≤ retry_count ≤ max_retries` across any `execute` call, never decreases
(it is never reset), and once it has reached `max_retries` a failing
`process` produces an immediate failed result with exactly one further
`process` invocation. -/
theorem claim_C10 (proc : Nat → Data → Except String Data) (ptime : Nat → Nat)
    (wf : BaseWorkflow) (idx now : Nat) (d : Data)
    (hle : wf.retry_count ≤ wf.config.max_retries) :
    ((execute proc ptime wf idx now d).wfAfter.config = wf.config ∧
     wf.retry_count ≤ (execute proc ptime wf idx now d).wfAfter.retry_count ∧
     (execute proc ptime wf idx now d).wfAfter.retry_count
        ≤ wf.config.max_retries) ∧
    (wf.retry_count = wf.config.max_retries →
      ∀ e, proc idx d = .error e →
        (execute proc ptime wf idx now d).result.success = false ∧
        (execute proc ptime wf idx now d).idxAfter = idx + 1) := by
  constructor
  · obtain ⟨h1, h2, h3⟩ := execute_retry_mono proc ptime
      (wf.config.max_retries - wf.retry_count) wf idx now d rfl
    exact ⟨h1, h2, by omega⟩
  · intro heq e he
    have hrc : ¬ wf.retry_count < wf.config.max_retries := by omega
    unfold execute
    rw [he]
    simp [hrc]

/-- Witness for C10: an instance whose counter already equals
`max_retries = 0` fails immediately with a single process invocation. -/
theorem claim_C10_witness :
    (execute (fun _ _ => .error "boom") (fun _ => 1)
        (initWorkflow demoCfg0 0) 0 0 []).result.success = false ∧
    (execute (fun _ _ => .error "boom") (fun _ => 1)
        (initWorkflow demoCfg0 0) 0 0 []).idxAfter = 0 + 1 := by
  have h := claim_C10 (fun _ _ => .error "boom") (fun _ => 1)
    (initWorkflow demoCfg0 0) 0 0 [] (by simp [initWorkflow, demoCfg0])
  exact h.2 rfl "boom" rfl

/-! ## Claims about the queue manager -/

/-- C1 (amended): for a configured route and a configured maximum length of
at least 1, a sequence of `N > max_length` enqueues followed by `N` dequeues
returns exactly the last `max_length` enqueued items, in enqueue order, and
then reports empty.  (The restriction `max_length ≥ 1` is forced: with
`max_length = 0` the `LTRIM` call keeps the whole list, see the
counterexample.) -/
theorem claim_C1 (configs : List (String × String)) (url wn qn : String)
    (maxLen : Nat) (es : List (Data × Nat))
    (hroute : alookup qn configs = some url)
    (hmax : 1 ≤ maxLen) (hn : maxLen < es.length) :
    scenarioRun configs maxLen wn qn es es.length
      = .ok ((lastN maxLen es).map (fun p =>
            some { data := p.1, timestamp := p.2, queue := qn })
          ++ List.replicate (es.length - maxLen) none) := by
  have h1 : alookup qn (initManager configs maxLen).redis_configs
      = some url := hroute
  have h2 : (alookup qn (initManager configs maxLen).redis_connections).isSome
      := by
    show (alookup qn
      (configs.map (fun p => (p.1, (none : Option Nat))))).isSome = true
    rw [alookup_init_connections, hroute]
    rfl
  obtain ⟨qm1, hseq, hst, hcc, hcconn, hm⟩ :=
    enqueueSeq_ok wn qn url es (initManager configs maxLen) h1 h2
  have hst' : qm1.store url (queueKey wn)
      = lastN maxLen (es.map (fun p =>
          ({ data := p.1, timestamp := p.2, queue := qn } : Item))) := by
    rw [hst]
    have hinit : (initManager configs maxLen).store url (queueKey wn)
        = [] := rfl
    rw [hinit]
    have hfold := foldl_trim_lastN qn maxLen hmax es [] (by simp)
    simpa [initManager] using hfold
  have hlen : (lastN maxLen (es.map (fun p =>
      ({ data := p.1, timestamp := p.2, queue := qn } : Item)))).length
        = maxLen := by
    unfold lastN
    rw [List.length_drop, List.length_map]
    omega
  obtain ⟨qm2, hrun⟩ := dequeueRun_drain wn qn url
    (lastN maxLen (es.map (fun p =>
      ({ data := p.1, timestamp := p.2, queue := qn } : Item))))
    (es.length - maxLen) qm1 (by rw [hcc]; exact h1) hcconn hst'
  unfold scenarioRun
  rw [hseq]
  dsimp only
  rw [hlen] at hrun
  have hcnt2 : maxLen + (es.length - maxLen) = es.length := by omega
  rw [hcnt2] at hrun
  rw [hrun]
  dsimp only
  rw [lastN_map]
  simp [List.map_map, Function.comp]

/-- Witness for C1, which is also the spec's example scenario: max length 2,
three enqueues under workflow `demo` on route `default`, three dequeues —
the first dequeue returns the second enqueued item (the first was evicted),
the second returns the third item, and the third dequeue reports empty. -/
theorem claim_C1_witness :
    scenarioRun defaultConfigs 2 "demo" "default"
        [(demoData, 1), (demoData2, 2), (demoData3, 3)] 3
      = .ok [some { data := demoData2, timestamp := 2, queue := "default" },
             some { data := demoData3, timestamp := 3, queue := "default" },
             none] := by
  have h := claim_C1 defaultConfigs demoUrl "demo" "default" 2
    [(demoData, 1), (demoData2, 2), (demoData3, 3)] rfl (by omega) (by simp)
  simpa [lastN] using h

/-- C1 counterexample: with configured maximum length 0, one enqueue
followed by one dequeue returns the enqueued item, where the claim as
stated (the dequeues return the last `max_length = 0` items, then empty)
demands that the first dequeue already report empty. -/
theorem claim_C1_cex :
    scenarioRun defaultConfigs 0 "demo" "default" [(demoData, 0)] 1
        ≠ .ok [none] ∧
    scenarioRun defaultConfigs 0 "demo" "default" [(demoData, 0)] 1
      = .ok [some { data := demoData, timestamp := 0, queue := "default" }]
      := by
  refine ⟨?_, rfl⟩
  intro hcontra
  rw [show scenarioRun defaultConfigs 0 "demo" "default" [(demoData, 0)] 1
      = .ok [some { data := demoData, timestamp := 0, queue := "default" }]
      from rfl] at hcontra
  simp at hcontra

/-- C6: for a queue name absent from the route table, `connect`, `enqueue`,
`dequeue` and `get_queue_size` all fail with the configuration error
(`ValueError: Queue ... not configured`); no operation returns a manager, so
no route is ever auto-created. -/
theorem claim_C6 (qm : QueueManager) (qn wn : String) (d : Data) (now : Nat)
    (hq : alookup qn qm.redis_configs = none) :
    connect qm qn
        = .error (.valueError ("Queue " ++ qn ++ " not configured")) ∧
    enqueue qm wn d qn now
        = .error (.valueError ("Queue " ++ qn ++ " not configured")) ∧
    dequeue qm wn qn
        = .error (.valueError ("Queue " ++ qn ++ " not configured")) ∧
    get_queue_size qm wn qn
        = .error (.valueError ("Queue " ++ qn ++ " not configured")) := by
  unfold connect enqueue dequeue get_queue_size
  rw [hq]
  exact ⟨rfl, rfl, rfl, rfl⟩

/-- Witness for C6: the route `nope` is not configured on the demo manager,
and all four operations fail with the configuration error. -/
theorem claim_C6_witness :
    connect qmConnected "nope"
        = .error (.valueError "Queue nope not configured") ∧
    enqueue qmConnected "demo" demoData "nope" 0
        = .error (.valueError "Queue nope not configured") ∧
    dequeue qmConnected "demo" "nope"
        = .error (.valueError "Queue nope not configured") ∧
    get_queue_size qmConnected "demo" "nope"
        = .error (.valueError "Queue nope not configured") := by
  have h := claim_C6 qmConnected "nope" "demo" demoData 0 rfl
  exact h

/-- C7 (amended): on a reachable route with configured maximum length at
least 1, `enqueue` returns `True` and leaves the queue list equal to the
last `max_queue_length` elements of the old list with the new item appended
(drop-oldest), so its length is at most the bound.  (The restriction
`max_queue_length ≥ 1` is forced: with bound 0 the `LTRIM` call keeps
everything, see the counterexample.) -/
theorem claim_C7 (qm : QueueManager) (wn : String) (d : Data) (qn : String)
    (now : Nat) (url : String)
    (hroute : alookup qn qm.redis_configs = some url)
    (hconn : (alookup qn qm.redis_connections).isSome)
    (hmax : 1 ≤ qm.max_queue_length) :
    ∃ qm', enqueue qm wn d qn now = .ok (true, qm') ∧
      qm'.store url (queueKey wn)
        = lastN qm.max_queue_length
            (qm.store url (queueKey wn)
              ++ [{ data := d, timestamp := now, queue := qn }]) ∧
      (qm'.store url (queueKey wn)).length ≤ qm.max_queue_length := by
  obtain ⟨qm', henq, hst, _, _, _⟩ := enqueue_ok qm wn d qn now url hroute hconn
  rw [ltrim_lastN _ hmax] at hst
  exact ⟨qm', henq, hst, by rw [hst]; exact lastN_length_le _ _⟩

/-- Witness for C7: enqueueing a third item into a bound-2 queue holding two
items returns `True` and leaves the last two items, within the bound. -/
theorem claim_C7_witness :
    (enqueue qmFull "demo" demoData3 "default" 3).map
        (fun p => p.2.store demoUrl (queueKey "demo"))
      = .ok [{ data := demoData2, timestamp := 2, queue := "default" },
             { data := demoData3, timestamp := 3, queue := "default" }] ∧
    (enqueue qmFull "demo" demoData3 "default" 3).map (fun p => p.1)
      = .ok true := by
  obtain ⟨qm', henq, hst, hlen⟩ := claim_C7 qmFull "demo" demoData3 "default"
    3 demoUrl rfl rfl (by decide)
  constructor
  · rw [henq]
    simp only [Except.map]
    rw [hst]
    rfl
  · rw [henq]
    rfl

/-- C7 counterexample: with configured maximum length 0, an enqueue into an
empty queue leaves a list of length 1, exceeding the bound — `LTRIM key 0 -1`
(the rendering of `-max_queue_length` when the bound is 0) keeps every
element instead of dropping them all. -/
theorem claim_C7_cex :
    (initManager defaultConfigs 0).max_queue_length = 0 ∧
    (enqueue (initManager defaultConfigs 0) "demo" demoData "default" 5).map
        (fun p => (p.2.store demoUrl (queueKey "demo")).length)
      = .ok 1 := ⟨rfl, rfl⟩

/-- C9: on a configured route, disconnecting an unconnected route is a no-op
that does not raise (it returns the manager unchanged); disconnecting a
connected route leaves the slot unconnected, and the next `connect`
establishes a fresh handle (the next handle id) rather than reusing the
closed one. -/
theorem claim_C9 (qm : QueueManager) (qn : String)
    (hroute : (alookup qn qm.redis_configs).isSome) :
    (alookup qn qm.redis_connections = some none →
      disconnect qm qn = .ok qm) ∧
    (∀ cid, alookup qn qm.redis_connections = some (some cid) →
        cid < qm.nextConnId →
      (disconnect qm qn).map (fun q => alookup qn q.redis_connections)
          = .ok (some none) ∧
      ((disconnect qm qn).bind (fun q => connect q qn)).map
          (fun q => alookup qn q.redis_connections)
        = .ok (some (some qm.nextConnId)) ∧
      qm.nextConnId ≠ cid) := by
  constructor
  · intro hc
    unfold disconnect
    rw [hc]
  · intro cid hc hlt
    have hdisc : disconnect qm qn
        = .ok { qm with
            redis_connections := setAssoc qn none qm.redis_connections } := by
      unfold disconnect
      rw [hc]
    have hslot : alookup qn (setAssoc qn (none : Option Nat)
        qm.redis_connections) = some none :=
      alookup_setAssoc_self _ _ _ (by rw [hc]; rfl)
    obtain ⟨url, hurl⟩ := Option.isSome_iff_exists.mp hroute
    refine ⟨?_, ?_, by omega⟩
    · rw [hdisc]
      simp only [Except.map]
      exact congrArg Except.ok hslot
    · rw [hdisc]
      simp only [Except.bind]
      unfold connect
      dsimp only
      rw [hurl]
      dsimp only
      rw [hslot]
      dsimp only
      simp only [Except.map]
      refine congrArg Except.ok ?_
      rw [alookup_setAssoc_self _ _ _ (by rw [hslot]; rfl)]

/-- Witness for C9: on the connected demo manager (handle 0, next id 1),
disconnect leaves the slot unconnected and a re-connect creates handle 1,
not handle 0; and on a freshly constructed manager, whose route is
unconnected, disconnect is a no-op. -/
theorem claim_C9_witness :
    (disconnect qmConnected "default").map
        (fun q => alookup "default" q.redis_connections) = .ok (some none) ∧
    ((disconnect qmConnected "default").bind
        (fun q => connect q "default")).map
        (fun q => alookup "default" q.redis_connections)
      = .ok (some (some 1)) ∧
    (1 : Nat) ≠ 0 ∧
    disconnect (initManager defaultConfigs 1000) "default"
      = .ok (initManager defaultConfigs 1000) := by
  have h := claim_C9 qmConnected "default" rfl
  have h2 := h.2 0 rfl (by decide)
  have h3 := claim_C9 (initManager defaultConfigs 1000) "default" rfl
  exact ⟨h2.1, h2.2.1, h2.2.2, h3.1 rfl⟩

/-! ## Lemmas about the dispatch loop -/

/-- A workflow visit never touches the clock, the running flag, or the
registry. -/
theorem visitWorkflow_frame (s : ProcState) (wn : String) :
    (visitWorkflow s wn).clock = s.clock ∧
    (visitWorkflow s wn).running = s.running ∧
    (visitWorkflow s wn).registry = s.registry := by
  unfold visitWorkflow
  split
  · exact ⟨rfl, rfl, rfl⟩
  · exact ⟨rfl, rfl, rfl⟩
  · split
    · exact ⟨rfl, rfl, rfl⟩
    · dsimp only
      split
      · exact ⟨rfl, rfl, rfl⟩
      · exact ⟨rfl, rfl, rfl⟩

/-- A full dispatch pass never touches the clock or the running flag. -/
theorem onePass_frame :
    ∀ (reg : List String) (s : ProcState),
      (reg.foldl visitWorkflow s).clock = s.clock ∧
      (reg.foldl visitWorkflow s).running = s.running := by
  intro reg
  induction reg with
  | nil => intro s; exact ⟨rfl, rfl⟩
  | cons wn rest ih =>
    intro s
    rw [List.foldl_cons]
    obtain ⟨h1, h2⟩ := ih (visitWorkflow s wn)
    obtain ⟨g1, g2, _⟩ := visitWorkflow_frame s wn
    exact ⟨h1.trans g1, h2.trans g2⟩

/-- When the `default` route is unconfigured, the dequeue raises
`ValueError`, which the visit's `except` clause catches and logs; the state
is otherwise untouched. -/
theorem visitWorkflow_noroute (s : ProcState) (wn : String)
    (hq : alookup "default" s.qm.redis_configs = none) :
    visitWorkflow s wn
      = { s with errorLog :=
          (wn, "Queue default not configured") :: s.errorLog } := by
  unfold visitWorkflow
  have hdq : dequeue s.qm wn "default"
      = .error (.valueError "Queue default not configured") := by
    unfold dequeue
    rw [hq]
    rfl
  rw [hdq]
  rfl

/-- When the `default` route is unconfigured, a full pass logs one
`processor_error` per registered workflow — every workflow is still visited
— and changes nothing else. -/
theorem onePass_noroute :
    ∀ (reg : List String) (s : ProcState),
      alookup "default" s.qm.redis_configs = none →
      reg.foldl visitWorkflow s
        = { s with errorLog :=
            (reg.reverse.map (fun wn => (wn, "Queue default not configured")))
              ++ s.errorLog } := by
  intro reg
  induction reg with
  | nil => intro s _; rfl
  | cons wn rest ih =>
    intro s hq
    rw [List.foldl_cons, visitWorkflow_noroute s wn hq,
      ih { s with errorLog := (wn, "Queue default not configured")
            :: s.errorLog } hq]
    simp [List.reverse_cons, List.map_append]

/-! ## Claims about the dispatch loop -/

/-- C4 (code bug): in a dispatch pass over one registered workflow with one
queued item, the item is dequeued and the queue-depth gauge is set, but the
construction `workflow_class(data)` raises `AttributeError` (the raw item
dictionary is passed where `BaseWorkflow.__init__` expects a config with a
`.name`), the exception is caught and logged as `processor_error`, and no
execution happens: the execution counter is never recorded, contradicting
the claim that the item's data is fed into `execute` and an outcome counter
is recorded. -/
theorem claim_C4_bug :
    c4Run.map (fun s => (s.execCounter, s.gauge, s.errorLog))
      = .ok ([], [("demo", 0)],
             [("demo", "'dict' object has no attribute 'name'")]) := by
  rfl

/-- C8: the dispatch loop never exits because of a per-item or per-workflow
exception, and stopping is observed within one iteration.  Concretely:
when every dequeue raises (unconfigured route), one pass logs a
`processor_error` for every registered workflow and changes nothing else
(the exceptions are caught and the pass proceeds through the whole
registry); with the running flag cleared the loop exits at once without
another pass; with the flag set the loop performs exactly one more
iteration before re-checking; each iteration advances the clock by exactly
one sleep tick; and in the two-workflow state where each visit raises
inside dispatch, both workflows are still visited and logged, and the loop
is still running. -/
theorem claim_C8 (fuel : Nat) (s : ProcState) :
    (alookup "default" s.qm.redis_configs = none →
      onePass s = { s with errorLog :=
        (s.registry.reverse.map
          (fun wn => (wn, "Queue default not configured"))) ++ s.errorLog }) ∧
    (s.running = false → runLoop fuel s = s) ∧
    (s.running = true → runLoop (fuel + 1) s = runLoop fuel (loopIter s)) ∧
    (loopIter s).clock = s.clock + 1 ∧
    ((onePass c8TwoState).errorLog
        = [("wfB", "'dict' object has no attribute 'name'"),
           ("wfA", "'dict' object has no attribute 'name'")] ∧
      (onePass c8TwoState).running = true) := by
  refine ⟨?_, ?_, ?_, ?_, rfl, rfl⟩
  · intro hq
    exact onePass_noroute s.registry s hq
  · intro hstop
    cases fuel with
    | zero => rfl
    | succ k =>
      rw [show runLoop (k + 1) s
          = if s.running then runLoop k (loopIter s) else s from rfl]
      rw [hstop]
      rfl
  · intro hrun
    rw [show runLoop (fuel + 1) s
        = if s.running then runLoop fuel (loopIter s) else s from rfl]
    rw [hrun]
    rfl
  · show (onePass s).clock + 1 = s.clock + 1
    have h := (onePass_frame s.registry s).1
    unfold onePass
    rw [h]

/-- Witness for C8 on concrete states: the no-route pass logs both
workflows; the stopped loop is a fixed point; the running loop steps once;
the iteration bumps the clock from 0 to 1. -/
theorem claim_C8_witness :
    onePass c8NoRouteState
      = { c8NoRouteState with errorLog :=
          [("wfB", "Queue default not configured"),
           ("wfA", "Queue default not configured")] } ∧
    runLoop 5 (stopProc c8NoRouteState) = stopProc c8NoRouteState ∧
    runLoop 6 c8NoRouteState = runLoop 5 (loopIter c8NoRouteState) ∧
    (loopIter c8NoRouteState).clock = 1 := by
  have h := claim_C8 5 c8NoRouteState
  have hstop := claim_C8 5 (stopProc c8NoRouteState)
  exact ⟨h.1 rfl, hstop.2.1 rfl, h.2.2.1 rfl, h.2.2.2.1⟩

end DataPipeline
